import Mathlib

/-!
Verification development for the continuous-discovery and failure-recovery
engine of the Vitess orchestrator (`go/vt/orchestrator/logic`): the
deduplicated discovery queue and worker pool, the throttled instance
discovery operation, the leader-election gate, the non-reentrant recovery
trigger guard, and the signal-driven shutdown drain.

The Go code is embedded shallowly: external collaborators (the probe, the
backing store, the election service) are environment parameters; machine
time is `Nat` nanoseconds; the throttle cache is an explicit association
list of keys and expiration instants.
-/

set_option autoImplicit false

namespace VitessDiscovery

/-! ### Time units and the poll interval -/

/-- One second in nanoseconds (Go `time.Second`). -/
def timeSecond : Nat := 1000000000

/-- Embeds `instancePollSecondsDuration`:
`time.Duration(config.Config.InstancePollSeconds) * time.Second`. -/
def instancePollSecondsDuration (instancePollSeconds : Nat) : Nat :=
  instancePollSeconds * timeSecond

/-! ### Leader election flag

`isElectedNode` is an `int64` mutated only by the health tick, holding 0 or 1. -/

/-- Embeds `IsLeader`: `atomic.LoadInt64(&isElectedNode) == 1`. -/
def IsLeader (isElectedNode : Int) : Bool :=
  isElectedNode == 1

/-- Embeds `IsLeaderOrActive`: `atomic.LoadInt64(&isElectedNode) == 1`. -/
def IsLeaderOrActive (isElectedNode : Int) : Bool :=
  isElectedNode == 1

/-! ### The recent-discovery throttle cache

`recentDiscoveryOperationKeys` is a `go-cache` cache from instance display
string to a "recently probed" marker.  We model it as an association list
from key to the marker's expiration instant.  Per the `go-cache` contract,
an item is expired iff the current time is strictly past its expiration,
and `Add` errors out (leaving the cache unchanged) iff an unexpired item
already exists for the key; otherwise it stores the item with expiration
`now + ttl`. -/

/-- The throttle cache: keys paired with marker expiration instants. -/
def ThrottleCache : Type := List (String × Nat)

/-- Expiration instant of the marker for `k`, if a marker entry exists. -/
def cacheLookup (c : ThrottleCache) (k : String) : Option Nat :=
  List.lookup k c

/-- Whether an unexpired marker for `k` exists at time `now`
(`go-cache`: expired iff `now > expiration`). -/
def cacheHasUnexpired (c : ThrottleCache) (k : String) (now : Nat) : Bool :=
  match cacheLookup c k with
  | some e => now ≤ e
  | none => false

/-- Embeds `go-cache` `Cache.Add`: if an unexpired item exists for `k` the
add fails and the cache is unchanged (`true` in the second component means
the item already existed); otherwise the marker is stored with expiration
`now + ttl`, replacing any expired entry. -/
def cacheAdd (c : ThrottleCache) (k : String) (ttl now : Nat) :
    ThrottleCache × Bool :=
  if cacheHasUnexpired c k now then
    (c, true)
  else
    ((k, now + ttl) :: List.filter (fun p => p.1 ≠ k) c, false)

/-! ### The instance discovery operation -/

/-- Outcomes of the external collaborators consulted by one
`DiscoverInstance` call, plus the stopwatch readings taken during it.
`elapsedTotalAtMeasure` is `latency.Elapsed("total")` as read right after
the probe returns (the value recorded in the discovery metric);
`elapsedTotalAtExit` is the reading taken by the deferred
poll-seconds-exceeded check at function exit. -/
structure DiscoverEnv where
  forgotten : Bool
  ignoredByFilters : Bool
  validAfterResolve : Bool
  backendFound : Bool
  backendUpToDate : Bool
  backendLastCheckValid : Bool
  probeInstance : Option Unit
  probeErr : Option String
  clearToLog : Bool
  elapsedTotalAtMeasure : Nat
  elapsedBackend : Nat
  elapsedInstance : Nat
  elapsedTotalAtExit : Nat
  deriving DecidableEq

/-- A discovery metric appended to `discoveryMetrics`. -/
structure DMetric where
  instanceKey : String
  totalLatency : Nat
  backendLatency : Nat
  instanceLatency : Nat
  err : Option String
  deriving DecidableEq

/-- Observable effects of one `DiscoverInstance` call: the throttle cache
after the call, whether the backend read and the probe were reached, the
per-call increments of the discovery counters, the number of
poll-seconds-exceeded warnings and nil-instance warnings logged, and the
metrics appended. -/
structure DiscoverResult where
  cache : ThrottleCache
  backendRead : Bool
  probeInvoked : Bool
  discoveriesInc : Nat
  failedInc : Nat
  pollExceededInc : Nat
  pollExceededWarnings : Nat
  nilInstanceWarnings : Nat
  metrics : List DMetric

/-- Embeds `DiscoverInstance(instanceKey, forceDiscovery)`.  Control flow
follows the source: skip if forgotten or filtered; install the deferred
poll-seconds-exceeded check; return if the key is invalid after hostname
resolution; add the throttle marker with time-to-live equal to the poll
interval recomputed now, returning when the marker already exists and the
call is not forced; read the backend state and return if it is fresh and
the call is not forced; otherwise invoke the probe, and append exactly one
discovery metric whether or not the probe produced an instance.  The
deferred check fires on every exit path after the first two filters. -/
def DiscoverInstance (instancePollSeconds : Nat) (env : DiscoverEnv)
    (cache : ThrottleCache) (now : Nat) (instanceKey : String)
    (forceDiscovery : Bool) : DiscoverResult :=
  if env.forgotten then
    ⟨cache, false, false, 0, 0, 0, 0, 0, []⟩
  else if env.ignoredByFilters then
    ⟨cache, false, false, 0, 0, 0, 0, 0, []⟩
  else
    -- deferred: latency.Elapsed("total") > instancePollSecondsDuration()
    let pollDur := instancePollSecondsDuration instancePollSeconds
    let exceeded : Nat := if pollDur < env.elapsedTotalAtExit then 1 else 0
    if !env.validAfterResolve then
      ⟨cache, false, false, 0, 0, exceeded, exceeded, 0, []⟩
    else
      let added := cacheAdd cache instanceKey pollDur now
      if added.2 && !forceDiscovery then
        -- just recently attempted
        ⟨added.1, false, false, 0, 0, exceeded, exceeded, 0, []⟩
      else if !forceDiscovery && env.backendFound && env.backendUpToDate
          && env.backendLastCheckValid then
        -- already discovered and up to date: skip the probe
        ⟨added.1, true, false, 0, 0, exceeded, exceeded, 0, []⟩
      else
        match env.probeInstance with
        | none =>
          -- probe yielded no instance (error or recovered panic)
          ⟨added.1, true, true, 1, 1, exceeded, exceeded,
            (if env.clearToLog then 1 else 0),
            [⟨instanceKey, env.elapsedTotalAtMeasure, env.elapsedBackend,
              env.elapsedInstance, env.probeErr⟩]⟩
        | some _ =>
          ⟨added.1, true, true, 1, 0, exceeded, exceeded, 0,
            [⟨instanceKey, env.elapsedTotalAtMeasure, env.elapsedBackend,
              env.elapsedInstance, none⟩]⟩

/-! ### The deduplicating discovery queue

Modelled from the spec: the discovery queue (`discovery.Queue` with
`Push`, `Consume`, `Release`, `QueueLen`) is code of this repository whose
implementation is not under src/; only its call sites are.  Per the spec,
`push(key)` enqueues `key` unless it is already pending or in-flight
(idempotent), `consume()` pops a pending key and marks it in-flight, and
`release(key)` marks `key` no longer in-flight, permitting it to be
re-pushed. -/

/-- The discovery queue: pending keys in order, plus in-flight keys
(consumed but not yet released). -/
structure Queue (K : Type) where
  queuedKeys : List K
  inFlight : List K
  deriving DecidableEq

namespace Queue

/-- Modelled from the spec: `Push` enqueues the key unless it is already
pending or in-flight, in which case it is a no-op. -/
def Push {K : Type} [DecidableEq K] (k : K) (q : Queue K) : Queue K :=
  if k ∈ q.queuedKeys ∨ k ∈ q.inFlight then q
  else { q with queuedKeys := q.queuedKeys ++ [k] }

/-- Modelled from the spec: `Consume` pops the oldest pending key and marks
it in-flight; `none` when nothing is pending (the Go call blocks instead). -/
def Consume {K : Type} (q : Queue K) : Option (K × Queue K) :=
  match q.queuedKeys with
  | [] => none
  | k :: rest => some (k, ⟨rest, q.inFlight ++ [k]⟩)

/-- Modelled from the spec: `Release` marks the key no longer in-flight. -/
def Release {K : Type} [DecidableEq K] (k : K) (q : Queue K) : Queue K :=
  { q with inFlight := q.inFlight.erase k }

/-- Number of outstanding (pending or in-flight) entries for key `k`. -/
def outstanding {K : Type} [DecidableEq K] (k : K) (q : Queue K) : Nat :=
  q.queuedKeys.count k + q.inFlight.count k

/-- The queue invariant: at most one outstanding entry per key. -/
def WF {K : Type} [DecidableEq K] (q : Queue K) : Prop :=
  ∀ k : K, outstanding k q ≤ 1

end Queue

/-! ### The discovery worker loop body -/

/-- Observable effects of one iteration of a discovery worker. -/
structure WorkerOutcome where
  releasedKeys : List String
  discoverInvoked : Bool
  deriving DecidableEq

/-- Embeds the body of the worker loop spawned by
`handleDiscoveryRequests`: consume a key from the queue (blocking; `none`
models no iteration happening on an empty queue); if this node is not the
leader or active, skip discovery but still release the key; otherwise run
`DiscoverInstance(instanceKey, false)` and release the key afterward. -/
def handleDiscoveryRequestsIteration (isElectedNode : Int)
    (instancePollSeconds : Nat) (env : DiscoverEnv) (cache : ThrottleCache)
    (now : Nat) (q : Queue String) :
    Option (Queue String × ThrottleCache × WorkerOutcome) :=
  match Queue.Consume q with
  | none => none
  | some (instanceKey, q1) =>
    if !IsLeaderOrActive isElectedNode then
      some (Queue.Release instanceKey q1, cache, ⟨[instanceKey], false⟩)
    else
      let r := DiscoverInstance instancePollSeconds env cache now
        instanceKey false
      some (Queue.Release instanceKey q1, r.cache, ⟨[instanceKey], true⟩)

/-! ### Health ticks, recovery ticks and the engine state -/

/-- Engine configuration fixed at the start of `ContinuousDiscovery`:
the configured poll-interval seconds and the process start instant
(`continuousDiscoveryStartTime`). -/
structure EngineConfig where
  instancePollSeconds : Nat
  startTime : Nat
  deriving DecidableEq

/-- Embeds `checkAndRecoverWaitPeriod := 3 * instancePollSecondsDuration()`. -/
def checkAndRecoverWaitPeriod (cfg : EngineConfig) : Nat :=
  3 * instancePollSecondsDuration cfg.instancePollSeconds

/-- Embeds `runCheckAndRecoverOperationsTimeRipe`:
`time.Since(continuousDiscoveryStartTime) >= checkAndRecoverWaitPeriod`. -/
def runCheckAndRecoverOperationsTimeRipe (cfg : EngineConfig) (now : Nat) :
    Bool :=
  checkAndRecoverWaitPeriod cfg ≤ now - cfg.startTime

/-- Modelled from the spec: the external election capability
`process.AttemptElection` (whose implementation is not under src/) returns
whether this process is now the active/elected one, or an error; an
erroring attempt does not report a win. -/
def attemptElectionWon : Except String Bool → Bool
  | .ok won => won
  | .error _ => false

/-- Mutable engine state touched by the health and recovery ticks:
the election flag, the recovery-entrance flag (both `int64` holding 0 or
1), and an instrumentation count of `CheckAndRecover` invocations. -/
structure EngineState where
  isElectedNode : Int
  recoveryEntrance : Int
  recoveryPasses : Nat
  deriving DecidableEq

/-- Engine state at process start: `isElectedNode = 0`,
`recoveryEntrance = 0`, no recovery pass run yet. -/
def engineInit : EngineState :=
  ⟨0, 0, 0⟩

/-- Embeds the election block of `onHealthTick`: store 1 into
`isElectedNode` when the attempt reports a win, 0 otherwise (an attempt
error is logged and does not alter this update). -/
def onHealthTickElection (res : Except String Bool) (s : EngineState) :
    EngineState :=
  { s with isElectedNode := if attemptElectionWon res then 1 else 0 }

/-- Observable events of one recovery-tick guard execution. -/
structure RecoveryTickEvents where
  guardAcquired : Bool
  passRun : Bool
  waitedForRipe : Bool
  deriving DecidableEq

/-- Embeds the recovery-tick branch of `ContinuousDiscovery`: when this
node is leader or active, attempt
`atomic.CompareAndSwapInt64(&recoveryEntrance, 0, 1)`; on failure return
without doing anything; on success run `CheckAndRecover` when the wait
period has passed (otherwise log that we are waiting), and in either case
the deferred `atomic.StoreInt64(&recoveryEntrance, 0)` resets the flag on
exit. -/
def recoveryTickGuard (cfg : EngineConfig) (now : Nat) (s : EngineState) :
    EngineState × RecoveryTickEvents :=
  if IsLeaderOrActive s.isElectedNode then
    if s.recoveryEntrance = 0 then
      if runCheckAndRecoverOperationsTimeRipe cfg now then
        ({ s with recoveryEntrance := 0,
                  recoveryPasses := s.recoveryPasses + 1 },
          ⟨true, true, false⟩)
      else
        ({ s with recoveryEntrance := 0 }, ⟨true, false, true⟩)
    else
      (s, ⟨false, false, false⟩)
  else
    (s, ⟨false, false, false⟩)

/-- A tick of the `ContinuousDiscovery` loop relevant to election and
recovery: a health tick carrying the election attempt's outcome, or a
recovery tick firing at instant `now`. -/
inductive EngineTick where
  | health (res : Except String Bool)
  | recovery (now : Nat)

/-- One tick of the engine. -/
def engineTickStep (cfg : EngineConfig) (s : EngineState) :
    EngineTick → EngineState
  | .health res => onHealthTickElection res s
  | .recovery now => (recoveryTickGuard cfg now s).1

/-- Run a sequence of ticks. -/
def runEngineTicks (cfg : EngineConfig) (ticks : List EngineTick)
    (s : EngineState) : EngineState :=
  ticks.foldl (engineTickStep cfg) s

/-! ### Two concurrent recovery-trigger requests

The recovery goroutine guards `CheckAndRecover` with
`atomic.CompareAndSwapInt64(&recoveryEntrance, 0, 1)` and a deferred
`atomic.StoreInt64(&recoveryEntrance, 0)`.  To reason about two requests
racing on the flag we give each request a program counter: `start` (about
to execute the compare-and-swap), `inCS` (holding the guard), `done`.  The
`int64` flag only ever holds 0 or 1, so we carry it as a `Bool`
(`true` = 1).  An interleaving is a list of process choices; each atomic
step is either the compare-and-swap (entering the critical section on
success, returning at once on failure) or the critical-section body
followed by the deferred store (running `CheckAndRecover` only when the
wait period is ripe; its outcome is discarded by the source, so a failing
pass takes the same exit path). -/

/-- Program counter of one recovery-trigger request. -/
inductive RecPC where
  | start
  | inCS
  | done
  deriving DecidableEq, Fintype

/-- Joint state of the entrance flag and two racing recovery-trigger
requests `A` and `B`:  `held` records a successful compare-and-swap,
`ran` that `CheckAndRecover` was invoked, `skipped` that the request
returned because its compare-and-swap failed. -/
structure RecoveryRace where
  entrance : Bool
  pcA : RecPC
  pcB : RecPC
  heldA : Bool
  heldB : Bool
  ranA : Bool
  ranB : Bool
  skippedA : Bool
  skippedB : Bool
  deriving DecidableEq

/-- Initial race state: flag 0, both requests about to run. -/
def raceInit : RecoveryRace :=
  ⟨false, .start, .start, false, false, false, false, false, false⟩

/-- One atomic step of request `A` (`timeRipe` is the value of
`runCheckAndRecoverOperationsTimeRipe()` during the critical section). -/
def raceStepA (timeRipe : Bool) (s : RecoveryRace) : RecoveryRace :=
  match s.pcA with
  | .start =>
    if s.entrance = false then
      { s with entrance := true, pcA := .inCS, heldA := true }
    else
      { s with pcA := .done, skippedA := true }
  | .inCS =>
    { s with entrance := false, pcA := .done, ranA := timeRipe }
  | .done => s

/-- One atomic step of request `B`. -/
def raceStepB (timeRipe : Bool) (s : RecoveryRace) : RecoveryRace :=
  match s.pcB with
  | .start =>
    if s.entrance = false then
      { s with entrance := true, pcB := .inCS, heldB := true }
    else
      { s with pcB := .done, skippedB := true }
  | .inCS =>
    { s with entrance := false, pcB := .done, ranB := timeRipe }
  | .done => s

/-- One step of the race under a scheduler choice (`true` steps `A`). -/
def raceStep (timeRipe : Bool) (p : Bool) (s : RecoveryRace) :
    RecoveryRace :=
  if p then raceStepA timeRipe s else raceStepB timeRipe s

/-- Run the race under an interleaving. -/
def raceRun (timeRipe : Bool) (sched : List Bool) (s : RecoveryRace) :
    RecoveryRace :=
  sched.foldl (fun s p => raceStep timeRipe p s) s

/-- Boolean implication, used to state the race invariant computably. -/
def bimp (a b : Bool) : Bool :=
  !a || b

/-- Inductive invariant of the race: the flag is 1 exactly while a request
holds the guard; at most one request holds it at a time; bookkeeping flags
agree with the program counters; and a request that skipped did so because
the other one was holding the guard. -/
def RaceInv (timeRipe : Bool) (s : RecoveryRace) : Bool :=
  (s.entrance == (s.pcA == .inCS || s.pcB == .inCS)) &&
  !(s.pcA == .inCS && s.pcB == .inCS) &&
  bimp (s.pcA == .start) (!s.heldA && !s.ranA && !s.skippedA) &&
  bimp (s.pcB == .start) (!s.heldB && !s.ranB && !s.skippedB) &&
  bimp (s.pcA == .inCS) (s.heldA && !s.ranA && !s.skippedA) &&
  bimp (s.pcB == .inCS) (s.heldB && !s.ranB && !s.skippedB) &&
  bimp (s.pcA == .done && s.skippedA)
    (!s.heldA && !s.ranA && s.heldB && !(s.pcB == .start)) &&
  bimp (s.pcB == .done && s.skippedB)
    (!s.heldB && !s.ranB && s.heldA && !(s.pcA == .start)) &&
  bimp (s.pcA == .done && !s.skippedA) (s.heldA && s.ranA == timeRipe) &&
  bimp (s.pcB == .done && !s.skippedB) (s.heldB && s.ranB == timeRipe)

/-! ### SIGTERM shutdown drain -/

/-- How the shutdown drain loop exited: the outstanding-lock counter was
observed to be zero at poll `i`, or the shutdown-wait timeout fired at
poll `i` with locks still held. -/
inductive DrainExit where
  | reachedZero (i : Nat)
  | timedOut (i : Nat)
  deriving DecidableEq

/-- Embeds the drain loop of the SIGTERM handler, polling
`shardsLockCounter` once per sleep interval: at poll `i`, return at once
when the counter reads zero; otherwise return when the timeout channel has
fired (after `remaining` further polls), else sleep and poll again.
`counterAt i` is the value `atomic.LoadInt32(&shardsLockCounter)` reads at
poll `i`. -/
def drainFrom (counterAt : Nat → Nat) : Nat → Nat → DrainExit
  | 0, i =>
    if counterAt i = 0 then .reachedZero i else .timedOut i
  | remaining + 1, i =>
    if counterAt i = 0 then .reachedZero i
    else drainFrom counterAt remaining (i + 1)

/-- Observable effects of the SIGTERM branch of `acceptSignals`, in
program order: set `hasReceivedSIGTERM`, stop auto-expiration of the
discovery-metrics collection, audit the shutdown, drain, exit. -/
structure SigtermResult where
  terminatingSet : Bool
  autoExpirationStopped : Bool
  auditRecords : List String
  drainExit : DrainExit
  exited : Bool
  deriving DecidableEq

/-- Embeds the `syscall.SIGTERM` case of `acceptSignals`:
`atomic.StoreInt32(&hasReceivedSIGTERM, 1)`, then
`discoveryMetrics.StopAutoExpiration()`, then
`inst.AuditOperation("shutdown", ...)`, then block polling the
outstanding-lock counter until it reaches zero or the shutdown-wait
timeout (`timeoutPolls` sleep intervals) elapses, then `os.Exit(0)`. -/
def acceptSignalsSIGTERM (counterAt : Nat → Nat) (timeoutPolls : Nat) :
    SigtermResult :=
  { terminatingSet := true
    autoExpirationStopped := true
    auditRecords := ["shutdown"]
    drainExit := drainFrom counterAt timeoutPolls 0
    exited := true }

/-! ### Lemmas about the recovery-trigger race -/

theorem raceInv_step (t p : Bool) (s : RecoveryRace)
    (h : RaceInv t s = true) : RaceInv t (raceStep t p s) = true := by
  rcases s with ⟨e, pa, pb, ha, hb, ra, rb, sa, sb⟩
  revert h
  revert e ha hb ra rb sa sb
  cases t <;> cases p <;> cases pa <;> cases pb <;> decide

theorem raceInv_init (t : Bool) : RaceInv t raceInit = true := by
  cases t <;> decide

theorem raceInv_run (t : Bool) (sched : List Bool) (s : RecoveryRace)
    (h : RaceInv t s = true) : RaceInv t (raceRun t sched s) = true := by
  induction sched generalizing s with
  | nil => exact h
  | cons p rest ih => exact ih _ (raceInv_step t p s h)

theorem raceInv_mutex (t : Bool) (s : RecoveryRace)
    (h : RaceInv t s = true) :
    ¬(s.pcA = RecPC.inCS ∧ s.pcB = RecPC.inCS) := by
  rintro ⟨h1, h2⟩
  rcases s with ⟨e, pa, pb, ha, hb, ra, rb, sa, sb⟩
  cases h1
  cases h2
  revert h
  revert e ha hb ra rb sa sb
  cases t <;> decide

theorem raceInv_final (t : Bool) (s : RecoveryRace)
    (h : RaceInv t s = true) (hA : s.pcA = RecPC.done)
    (hB : s.pcB = RecPC.done) :
    s.entrance = false ∧
    ¬(s.skippedA = true ∧ s.skippedB = true) ∧
    (s.skippedA = true →
      s.heldA = false ∧ s.ranA = false ∧ s.heldB = true ∧ s.ranB = t) ∧
    (s.skippedB = true →
      s.heldB = false ∧ s.ranB = false ∧ s.heldA = true ∧ s.ranA = t) := by
  rcases s with ⟨e, pa, pb, ha, hb, ra, rb, sa, sb⟩
  cases hA
  cases hB
  revert h
  revert e ha hb ra rb sa sb
  cases t <;> decide

/-! ### Claim theorems -/

/-- C1: the recovery trigger guard is non-reentrant.  Under every
interleaving of two concurrent recovery-trigger requests, the two are
never simultaneously inside the guarded section; once both have returned,
the entrance flag is back to 0; whenever one of them skipped (its
compare-and-swap of the flag from 0 to 1 failed, which happens exactly
when the other held the guard at that moment), the other performed the
compare-and-swap and executed the recovery pass (when the wait period was
ripe) while the skipper ran nothing; at most one request skips; and a
subsequent fresh request acquires the guard again.  The flag is reset on
every exit path of the holder, including the not-yet-time-ripe branch
(`t = false`, in which case nobody runs `CheckAndRecover` yet the flag is
still 0 afterwards); the source discards `CheckAndRecover`'s outcome, so a
failing pass takes the same deferred-reset exit path. -/
theorem recoveryGuardNonReentrant (t : Bool) (sched : List Bool) :
    (∀ n : Nat,
      ¬((raceRun t (sched.take n) raceInit).pcA = RecPC.inCS ∧
        (raceRun t (sched.take n) raceInit).pcB = RecPC.inCS)) ∧
    ((raceRun t sched raceInit).pcA = RecPC.done →
      (raceRun t sched raceInit).pcB = RecPC.done →
      (raceRun t sched raceInit).entrance = false ∧
      ¬((raceRun t sched raceInit).skippedA = true ∧
        (raceRun t sched raceInit).skippedB = true) ∧
      ((raceRun t sched raceInit).skippedA = true →
        (raceRun t sched raceInit).heldA = false ∧
        (raceRun t sched raceInit).ranA = false ∧
        (raceRun t sched raceInit).heldB = true ∧
        (raceRun t sched raceInit).ranB = t) ∧
      ((raceRun t sched raceInit).skippedB = true →
        (raceRun t sched raceInit).heldB = false ∧
        (raceRun t sched raceInit).ranB = false ∧
        (raceRun t sched raceInit).heldA = true ∧
        (raceRun t sched raceInit).ranA = t) ∧
      (raceRun t [true]
        { raceInit with
            entrance := (raceRun t sched raceInit).entrance }).heldA
        = true) := by
  constructor
  · intro n
    exact raceInv_mutex t _ (raceInv_run t _ _ (raceInv_init t))
  · intro hA hB
    have hfin := raceInv_final t _ (raceInv_run t sched _ (raceInv_init t))
      hA hB
    refine ⟨hfin.1, hfin.2.1, hfin.2.2.1, hfin.2.2.2, ?_⟩
    rw [hfin.1]
    cases t <;> rfl

/-- Witness for C1 at the interleaving where request `A` wins the
compare-and-swap, `B` attempts its compare-and-swap while `A` holds the
guard and therefore skips, and `A` then runs the pass and releases. -/
theorem recoveryGuardNonReentrantWitness :
    (raceRun true [true, false, true] raceInit).heldB = false ∧
    (raceRun true [true, false, true] raceInit).ranB = false ∧
    (raceRun true [true, false, true] raceInit).heldA = true ∧
    (raceRun true [true, false, true] raceInit).ranA = true :=
  ((recoveryGuardNonReentrant true [true, false, true]).2
    (by decide) (by decide)).2.2.2.1 (by decide)

/-- C9: `IsLeader` and `IsLeaderOrActive` are extensionally equal — both
read the same atomic flag and compare it with 1, so there is no value of
the election flag on which they differ. -/
theorem isLeaderEqIsLeaderOrActive :
    ∀ isElectedNode : Int,
      IsLeader isElectedNode = IsLeaderOrActive isElectedNode :=
  fun _ => rfl

/-- C2: the dedup invariant of the discovery queue.  Pushing a key twice
without an intervening release leaves exactly one outstanding (pending or
in-flight) entry for it, and the second push is a no-op; the no-op part
holds for every queue, the exactly-one count under the queue invariant
that each key has at most one outstanding entry. -/
theorem queuePushDedup {K : Type} [DecidableEq K] (q : Queue K) (k : K)
    (h : Queue.WF q) :
    Queue.Push k (Queue.Push k q) = Queue.Push k q ∧
    Queue.outstanding k (Queue.Push k (Queue.Push k q)) = 1 := by
  have hsecond : Queue.Push k (Queue.Push k q) = Queue.Push k q := by
    by_cases hmem : k ∈ q.queuedKeys ∨ k ∈ q.inFlight
    · simp [Queue.Push, hmem]
    · simp [Queue.Push, hmem]
  refine ⟨hsecond, ?_⟩
  rw [hsecond]
  unfold Queue.Push
  split
  · rename_i hmem
    have hge : 1 ≤ Queue.outstanding k q := by
      unfold Queue.outstanding
      rcases hmem with hmem | hmem
      · have := List.count_pos_iff.2 hmem
        omega
      · have := List.count_pos_iff.2 hmem
        omega
    have hle := h k
    omega
  · rename_i hnot
    have hq : k ∉ q.queuedKeys ∧ k ∉ q.inFlight := by
      constructor
      · intro hmem
        exact hnot (Or.inl hmem)
      · intro hmem
        exact hnot (Or.inr hmem)
    unfold Queue.outstanding
    simp only [List.count_append]
    rw [List.count_eq_zero.2 hq.1, List.count_eq_zero.2 hq.2]
    simp

/-- Witness for C2 on a concrete queue containing an unrelated pending
key. -/
theorem queuePushDedupWitness :
    Queue.Push 7 (Queue.Push 7 (⟨[3], [5]⟩ : Queue Nat))
        = Queue.Push 7 (⟨[3], [5]⟩ : Queue Nat) ∧
    Queue.outstanding 7
        (Queue.Push 7 (Queue.Push 7 (⟨[3], [5]⟩ : Queue Nat))) = 1 :=
  queuePushDedup ⟨[3], [5]⟩ 7 (by
    intro k
    unfold Queue.outstanding
    simp only [List.count_cons, List.count_nil, beq_iff_eq]
    split <;> split <;> omega)

/-- C3: every discovery-worker iteration releases the consumed key exactly
once, on every code path: when the node is not elected/active the key is
still released (not discarded) and discovery is skipped; when it is
elected the key is released unconditionally after `DiscoverInstance`,
whose probe outcome (`env.probeInstance`, including the failure value
`none` covering probe errors and recovered probe panics) does not affect
the release. -/
theorem workerReleasesExactlyOnce (isElectedNode : Int)
    (instancePollSeconds : Nat) (env : DiscoverEnv)
    (cache : ThrottleCache) (now : Nat) (q q1 : Queue String) (k : String)
    (h : Queue.Consume q = some (k, q1)) :
    handleDiscoveryRequestsIteration isElectedNode instancePollSeconds env
        cache now q =
      some (Queue.Release k q1,
        (if IsLeaderOrActive isElectedNode then
          (DiscoverInstance instancePollSeconds env cache now k false).cache
        else cache),
        ⟨[k], IsLeaderOrActive isElectedNode⟩) := by
  unfold handleDiscoveryRequestsIteration
  rw [h]
  cases hl : IsLeaderOrActive isElectedNode <;> simp [hl]

/-- Witness for C3: a non-elected node consumes key `"a:3306"` and
releases it exactly once without invoking discovery. -/
theorem workerReleasesExactlyOnceWitness :
    handleDiscoveryRequestsIteration 0 1
        ⟨false, false, true, false, false, false, none, none, false,
          0, 0, 0, 0⟩ [] 0 ⟨["a:3306"], []⟩ =
      some (⟨[], []⟩, [], ⟨["a:3306"], false⟩) := by
  have h := workerReleasesExactlyOnce 0 1
    ⟨false, false, true, false, false, false, none, none, false,
      0, 0, 0, 0⟩ [] 0 ⟨["a:3306"], []⟩ ⟨[], ["a:3306"]⟩ "a:3306" rfl
  rw [h]
  rfl

/-- C5: a failed election attempt degrades to "not elected": after any
health tick whose attempt errors or does not win, `IsLeader` is false
(stale leadership is never preserved), and along any sequence of health
and recovery ticks starting not-elected in which every election attempt
fails, the flag stays false and no recovery pass is ever invoked by the
recovery tick. -/
theorem failedElectionDegrades (cfg : EngineConfig)
    (ticks : List EngineTick) (s0 : EngineState)
    (h0 : IsLeader s0.isElectedNode = false)
    (hfail : ∀ res : Except String Bool,
      EngineTick.health res ∈ ticks → attemptElectionWon res = false) :
    IsLeader (runEngineTicks cfg ticks s0).isElectedNode = false ∧
    (runEngineTicks cfg ticks s0).recoveryPasses = s0.recoveryPasses ∧
    (∀ (res : Except String Bool) (s : EngineState),
      attemptElectionWon res = false →
      IsLeader (onHealthTickElection res s).isElectedNode = false) := by
  have hsingle : ∀ (res : Except String Bool) (s : EngineState),
      attemptElectionWon res = false →
      IsLeader (onHealthTickElection res s).isElectedNode = false := by
    intro res s hres
    simp [onHealthTickElection, hres, IsLeader]
  have hmain : ∀ (tks : List EngineTick) (s : EngineState),
      IsLeader s.isElectedNode = false →
      (∀ res : Except String Bool,
        EngineTick.health res ∈ tks → attemptElectionWon res = false) →
      IsLeader (runEngineTicks cfg tks s).isElectedNode = false ∧
      (runEngineTicks cfg tks s).recoveryPasses = s.recoveryPasses := by
    intro tks
    induction tks with
    | nil =>
      intro s hs _
      exact ⟨hs, rfl⟩
    | cons tk rest ih =>
      intro s hs hf
      have hrest : ∀ res : Except String Bool,
          EngineTick.health res ∈ rest → attemptElectionWon res = false :=
        fun res hm => hf res (List.mem_cons_of_mem _ hm)
      cases tk with
      | health res =>
        have hres := hf res (List.mem_cons_self _ _)
        have hstep := hsingle res s hres
        have hunfold : runEngineTicks cfg (EngineTick.health res :: rest) s
            = runEngineTicks cfg rest (onHealthTickElection res s) := rfl
        rw [hunfold]
        have hrec := ih (onHealthTickElection res s) hstep hrest
        exact ⟨hrec.1, hrec.2⟩
      | recovery now =>
        have hguard : (recoveryTickGuard cfg now s).1 = s := by
          simp [recoveryTickGuard,
            show IsLeaderOrActive s.isElectedNode = false from hs]
        have hunfold :
            runEngineTicks cfg (EngineTick.recovery now :: rest) s
            = runEngineTicks cfg rest ((recoveryTickGuard cfg now s).1) :=
          rfl
        rw [hunfold, hguard]
        exact ih s hs hrest
  exact ⟨(hmain ticks s0 h0 hfail).1, (hmain ticks s0 h0 hfail).2, hsingle⟩

/-- Witness for C5: three election attempts failing in a row (two with an
error, one losing outright) interleaved with recovery ticks, one of them
firing long after the wait period; the node never reports leadership and
no recovery pass runs. -/
theorem failedElectionDegradesWitness :
    IsLeader (runEngineTicks ⟨1, 0⟩
        [EngineTick.health (Except.error "timeout"),
         EngineTick.recovery 5,
         EngineTick.health (Except.error "timeout"),
         EngineTick.health (Except.ok false),
         EngineTick.recovery 100000000000]
        engineInit).isElectedNode = false ∧
    (runEngineTicks ⟨1, 0⟩
        [EngineTick.health (Except.error "timeout"),
         EngineTick.recovery 5,
         EngineTick.health (Except.error "timeout"),
         EngineTick.health (Except.ok false),
         EngineTick.recovery 100000000000]
        engineInit).recoveryPasses = engineInit.recoveryPasses := by
  have h := failedElectionDegrades ⟨1, 0⟩
    [EngineTick.health (Except.error "timeout"),
     EngineTick.recovery 5,
     EngineTick.health (Except.error "timeout"),
     EngineTick.health (Except.ok false),
     EngineTick.recovery 100000000000]
    engineInit rfl (by
      intro res hm
      simp only [List.mem_cons, List.not_mem_nil, or_false] at hm
      rcases hm with h1 | h1 | h1 | h1 | h1 <;>
        first
          | (cases h1; rfl)
          | (exact absurd h1 (by simp)))
  exact ⟨h.1, h.2.1⟩

/-- C7: no automated recovery pass runs before the wall-clock guard
`checkAndRecoverWaitPeriod` — equal to three times the poll interval,
measured from process start — has elapsed: a recovery tick firing earlier
on an elected node acquires the entrance guard, does not invoke
`CheckAndRecover` (it logs the waiting message instead), and releases the
guard again. -/
theorem recoveryWaitPeriodGuardsFirstPass (cfg : EngineConfig) (now : Nat)
    (s : EngineState)
    (hElected : IsLeaderOrActive s.isElectedNode = true)
    (hFree : s.recoveryEntrance = 0)
    (hStart : cfg.startTime ≤ now)
    (hEarly : now < cfg.startTime + checkAndRecoverWaitPeriod cfg) :
    checkAndRecoverWaitPeriod cfg
        = 3 * instancePollSecondsDuration cfg.instancePollSeconds ∧
    (recoveryTickGuard cfg now s).2.guardAcquired = true ∧
    (recoveryTickGuard cfg now s).2.passRun = false ∧
    (recoveryTickGuard cfg now s).2.waitedForRipe = true ∧
    (recoveryTickGuard cfg now s).1.recoveryEntrance = 0 ∧
    (recoveryTickGuard cfg now s).1.recoveryPasses = s.recoveryPasses := by
  have hripe : runCheckAndRecoverOperationsTimeRipe cfg now = false := by
    simp only [runCheckAndRecoverOperationsTimeRipe,
      decide_eq_false_iff_not, not_le]
    omega
  refine ⟨rfl, ?_⟩
  simp [recoveryTickGuard, hElected, hFree, hripe]

/-- Witness for C7: with a 10-second poll interval and process start at
instant 0, a recovery tick at 29.999999999 seconds (just under the
30-second wait period) acquires and releases the guard without running a
pass. -/
theorem recoveryWaitPeriodGuardsFirstPassWitness :
    (recoveryTickGuard ⟨10, 0⟩ 29999999999 ⟨1, 0, 0⟩).2.guardAcquired
        = true ∧
    (recoveryTickGuard ⟨10, 0⟩ 29999999999 ⟨1, 0, 0⟩).2.passRun = false ∧
    (recoveryTickGuard ⟨10, 0⟩ 29999999999 ⟨1, 0, 0⟩).2.waitedForRipe
        = true ∧
    (recoveryTickGuard ⟨10, 0⟩ 29999999999 ⟨1, 0, 0⟩).1.recoveryEntrance
        = 0 ∧
    (recoveryTickGuard ⟨10, 0⟩ 29999999999 ⟨1, 0, 0⟩).1.recoveryPasses
        = (⟨1, 0, 0⟩ : EngineState).recoveryPasses :=
  (recoveryWaitPeriodGuardsFirstPass ⟨10, 0⟩ 29999999999 ⟨1, 0, 0⟩
    rfl rfl (by decide) (by decide)).2

/-! ### Lemmas about the shutdown drain -/

theorem drainFrom_timedOut (counterAt : Nat → Nat) :
    ∀ (r i : Nat), (∀ j, i ≤ j → j ≤ i + r → counterAt j ≠ 0) →
      drainFrom counterAt r i = DrainExit.timedOut (i + r) := by
  intro r
  induction r with
  | zero =>
    intro i h
    have hi := h i (Nat.le_refl i) (by omega)
    simp [drainFrom, hi]
  | succ r ih =>
    intro i h
    have hi := h i (Nat.le_refl i) (by omega)
    have hrest : ∀ j, i + 1 ≤ j → j ≤ i + 1 + r → counterAt j ≠ 0 :=
      fun j h1 h2 => h j (by omega) (by omega)
    have := ih (i + 1) hrest
    simp only [drainFrom, hi, if_false]
    rw [this]
    congr 1
    omega

theorem drainFrom_reachedZero (counterAt : Nat → Nat) :
    ∀ (r i i0 : Nat), i ≤ i0 → i0 ≤ i + r → counterAt i0 = 0 →
      (∀ j, j < i0 → counterAt j ≠ 0) →
      drainFrom counterAt r i = DrainExit.reachedZero i0 := by
  intro r
  induction r with
  | zero =>
    intro i i0 h1 h2 h3 _
    have : i = i0 := by omega
    subst this
    simp [drainFrom, h3]
  | succ r ih =>
    intro i i0 h1 h2 h3 h4
    by_cases hi : counterAt i = 0
    · have : i = i0 := by
        by_contra hne
        exact h4 i (by omega) hi
      subst this
      simp [drainFrom, hi]
    · have hlt : i < i0 := by
        rcases Nat.lt_or_ge i i0 with h | h
        · exact h
        · have : i = i0 := by omega
          subst this
          exact absurd h3 hi
      have := ih (i + 1) i0 (by omega) (by omega) h3 h4
      simp only [drainFrom, hi, if_false]
      exact this

/-- C8: the SIGTERM branch of the shutdown coordinator sets the
terminating flag, stops auto-expiration of the discovery-metrics
collection, emits the shutdown audit record, and exits after a drain that
polls the outstanding shard-lock counter: it exits at the first poll
observing zero, and when every poll up to the shutdown-wait timeout
observes a nonzero counter it exits at the timeout regardless of the
counter value. -/
theorem sigtermShutdownDrain (counterAt : Nat → Nat)
    (timeoutPolls : Nat) :
    (acceptSignalsSIGTERM counterAt timeoutPolls).terminatingSet = true ∧
    (acceptSignalsSIGTERM counterAt timeoutPolls).autoExpirationStopped
        = true ∧
    (acceptSignalsSIGTERM counterAt timeoutPolls).auditRecords
        = ["shutdown"] ∧
    (acceptSignalsSIGTERM counterAt timeoutPolls).exited = true ∧
    ((∀ i, i ≤ timeoutPolls → counterAt i ≠ 0) →
      (acceptSignalsSIGTERM counterAt timeoutPolls).drainExit
        = DrainExit.timedOut timeoutPolls) ∧
    (∀ i0, i0 ≤ timeoutPolls → counterAt i0 = 0 →
      (∀ j, j < i0 → counterAt j ≠ 0) →
      (acceptSignalsSIGTERM counterAt timeoutPolls).drainExit
        = DrainExit.reachedZero i0) := by
  refine ⟨rfl, rfl, rfl, rfl, ?_, ?_⟩
  · intro h
    have := drainFrom_timedOut counterAt timeoutPolls 0
      (fun j h1 h2 => h j (by omega))
    simpa [acceptSignalsSIGTERM] using this
  · intro i0 h1 h2 h3
    have := drainFrom_reachedZero counterAt timeoutPolls 0 i0
      (Nat.zero_le i0) (by omega) h2 h3
    simpa [acceptSignalsSIGTERM] using this

/-- Witness for C8, matching the spec scenario: the counter starts at 3
and is decremented once per poll with a shutdown-wait of 5 polls; the
drain exits as soon as the counter reaches zero, at poll 3. -/
theorem sigtermShutdownDrainWitness :
    (acceptSignalsSIGTERM (fun n => 3 - n) 5).terminatingSet = true ∧
    (acceptSignalsSIGTERM (fun n => 3 - n) 5).drainExit
        = DrainExit.reachedZero 3 :=
  ⟨(sigtermShutdownDrain (fun n => 3 - n) 5).1,
    (sigtermShutdownDrain (fun n => 3 - n) 5).2.2.2.2.2 3
      (by omega) (by decide) (by decide)⟩

/-! ### Lemmas about the discovery operation -/

theorem discoverCacheAfterAdd (ps : Nat) (env : DiscoverEnv)
    (c : ThrottleCache) (now : Nat) (k : String) (force : Bool)
    (ha : env.forgotten = false) (hb : env.ignoredByFilters = false)
    (hc : env.validAfterResolve = true) :
    (DiscoverInstance ps env c now k force).cache
      = (cacheAdd c k (instancePollSecondsDuration ps) now).1 := by
  unfold DiscoverInstance
  simp only [ha, hb, hc, Bool.false_eq_true, if_false, Bool.not_true,
    if_true]
  split
  · rfl
  · split
    · rfl
    · split <;> rfl

theorem discoverThrottled (ps : Nat) (env : DiscoverEnv)
    (c : ThrottleCache) (now : Nat) (k : String)
    (h : cacheHasUnexpired c k now = true) :
    (DiscoverInstance ps env c now k false).probeInvoked = false ∧
    (DiscoverInstance ps env c now k false).backendRead = false ∧
    (DiscoverInstance ps env c now k false).cache = c := by
  unfold DiscoverInstance
  by_cases h1 : env.forgotten = true
  · simp [h1]
  · simp only [Bool.not_eq_true] at h1
    by_cases h2 : env.ignoredByFilters = true
    · simp [h1, h2]
    · simp only [Bool.not_eq_true] at h2
      by_cases h3 : env.validAfterResolve = true
      · simp [h1, h2, h3, cacheAdd, h]
      · simp only [Bool.not_eq_true] at h3
        simp [h1, h2, h3]

theorem discoverProbes (ps : Nat) (env : DiscoverEnv) (c : ThrottleCache)
    (now : Nat) (k : String)
    (ha : env.forgotten = false) (hb : env.ignoredByFilters = false)
    (hc : env.validAfterResolve = true)
    (hm : cacheHasUnexpired c k now = false)
    (hfresh : (env.backendFound && env.backendUpToDate
      && env.backendLastCheckValid) = false) :
    (DiscoverInstance ps env c now k false).probeInvoked = true := by
  unfold DiscoverInstance
  simp only [ha, hb, hc, Bool.false_eq_true, if_false, Bool.not_true,
    if_true, cacheAdd, hm]
  cases hpi : env.probeInstance <;>
    simp [hpi, hfresh, cacheAdd, hm]

/-- C4: the non-forced discovery throttle.  A non-forced discovery of key
`k` performed at time `t` (with no unexpired marker present) inserts a
throttle marker expiring a full poll interval `T` later, `T` being
recomputed from the configured poll seconds at that moment; a non-forced
call for `k` at `t + T/2` performs no probe (and does not even read the
backend) and leaves the cache unchanged, whatever its environment; and a
non-forced call at `t + 2T`, after the marker expired, does probe
(provided it passes the forgotten/ignore filters, the key resolves, and
the backend does not report the instance as already fresh). -/
theorem nonForcedThrottleWindow (ps t : Nat)
    (env1 env2 env3 : DiscoverEnv) (cache0 : ThrottleCache) (k : String)
    (hps : 0 < ps)
    (h1a : env1.forgotten = false) (h1b : env1.ignoredByFilters = false)
    (h1c : env1.validAfterResolve = true)
    (h0 : cacheHasUnexpired cache0 k t = false)
    (h3a : env3.forgotten = false) (h3b : env3.ignoredByFilters = false)
    (h3c : env3.validAfterResolve = true)
    (h3d : (env3.backendFound && env3.backendUpToDate
      && env3.backendLastCheckValid) = false) :
    cacheLookup (DiscoverInstance ps env1 cache0 t k false).cache k
        = some (t + instancePollSecondsDuration ps) ∧
    (DiscoverInstance ps env2
        (DiscoverInstance ps env1 cache0 t k false).cache
        (t + instancePollSecondsDuration ps / 2) k false).probeInvoked
      = false ∧
    (DiscoverInstance ps env3
        (DiscoverInstance ps env2
          (DiscoverInstance ps env1 cache0 t k false).cache
          (t + instancePollSecondsDuration ps / 2) k false).cache
        (t + 2 * instancePollSecondsDuration ps) k false).probeInvoked
      = true := by
  have hT : 0 < instancePollSecondsDuration ps := by
    unfold instancePollSecondsDuration timeSecond
    omega
  have hadd := discoverCacheAfterAdd ps env1 cache0 t k false h1a h1b h1c
  have hc1 : cacheLookup
      (DiscoverInstance ps env1 cache0 t k false).cache k
      = some (t + instancePollSecondsDuration ps) := by
    rw [hadd]
    simp [cacheAdd, h0, cacheLookup, List.lookup]
  have hun2 : cacheHasUnexpired
      (DiscoverInstance ps env1 cache0 t k false).cache k
      (t + instancePollSecondsDuration ps / 2) = true := by
    simp only [cacheHasUnexpired, hc1, decide_eq_true_eq]
    have := Nat.div_le_self (instancePollSecondsDuration ps) 2
    omega
  have hth := discoverThrottled ps env2
    (DiscoverInstance ps env1 cache0 t k false).cache
    (t + instancePollSecondsDuration ps / 2) k hun2
  have hun3 : cacheHasUnexpired
      (DiscoverInstance ps env1 cache0 t k false).cache k
      (t + 2 * instancePollSecondsDuration ps) = false := by
    simp only [cacheHasUnexpired, hc1, decide_eq_false_iff_not]
    omega
  refine ⟨hc1, hth.1, ?_⟩
  rw [hth.2.2]
  exact discoverProbes ps env3
    (DiscoverInstance ps env1 cache0 t k false).cache
    (t + 2 * instancePollSecondsDuration ps) k h3a h3b h3c hun3 h3d

/-- Witness for C4 with a 1-second poll interval, an empty cache, and a
backend that does not report the instance as fresh. -/
theorem nonForcedThrottleWindowWitness :
    cacheLookup (DiscoverInstance 1
        ⟨false, false, true, false, false, false, none, none, false,
          0, 0, 0, 0⟩ [] 0 "a:3306" false).cache "a:3306"
      = some 1000000000 ∧
    (DiscoverInstance 1
        ⟨false, false, true, false, false, false, none, none, false,
          0, 0, 0, 0⟩
        (DiscoverInstance 1
          ⟨false, false, true, false, false, false, none, none, false,
            0, 0, 0, 0⟩ [] 0 "a:3306" false).cache
        500000000 "a:3306" false).probeInvoked = false ∧
    (DiscoverInstance 1
        ⟨false, false, true, false, false, false, none, none, false,
          0, 0, 0, 0⟩
        (DiscoverInstance 1
          ⟨false, false, true, false, false, false, none, none, false,
            0, 0, 0, 0⟩
          (DiscoverInstance 1
            ⟨false, false, true, false, false, false, none, none, false,
              0, 0, 0, 0⟩ [] 0 "a:3306" false).cache
          500000000 "a:3306" false).cache
        2000000000 "a:3306" false).probeInvoked = true :=
  nonForcedThrottleWindow 1 0
    ⟨false, false, true, false, false, false, none, none, false,
      0, 0, 0, 0⟩
    ⟨false, false, true, false, false, false, none, none, false,
      0, 0, 0, 0⟩
    ⟨false, false, true, false, false, false, none, none, false,
      0, 0, 0, 0⟩
    [] "a:3306" (by decide) rfl rfl rfl rfl rfl rfl rfl rfl

/-- C6: a discovery attempt whose total measured latency exceeds the poll
interval emits exactly one poll-seconds-exceeded signal — one counter
increment and one warning log, produced by the deferred check on the
single exit path taken — and, when the probe was actually invoked, exactly
one discovery metric, carrying a total latency greater than the poll
interval and, when the probe yielded no instance, the probe's error.  The
latency hypothesis is on the stopwatch reading taken right after the probe
(the value recorded in the metric); the deferred check reads the stopwatch
again at exit, a value at least as large.  A slow or failed probe never
fails the call: `DiscoverInstance` is total and returns only its effect
record. -/
theorem pollSecondsExceededSignal (ps : Nat) (env : DiscoverEnv)
    (c : ThrottleCache) (now : Nat) (k : String) (force : Bool)
    (ha : env.forgotten = false) (hb : env.ignoredByFilters = false)
    (hm : instancePollSecondsDuration ps < env.elapsedTotalAtMeasure)
    (hmono : env.elapsedTotalAtMeasure ≤ env.elapsedTotalAtExit) :
    (DiscoverInstance ps env c now k force).pollExceededInc = 1 ∧
    (DiscoverInstance ps env c now k force).pollExceededWarnings = 1 ∧
    ((DiscoverInstance ps env c now k force).probeInvoked = true →
      (DiscoverInstance ps env c now k force).metrics.length = 1 ∧
      (∀ m ∈ (DiscoverInstance ps env c now k force).metrics,
        instancePollSecondsDuration ps < m.totalLatency) ∧
      (env.probeInstance = none →
        ∀ m ∈ (DiscoverInstance ps env c now k force).metrics,
          m.err = env.probeErr)) := by
  have hex : instancePollSecondsDuration ps < env.elapsedTotalAtExit :=
    lt_of_lt_of_le hm hmono
  unfold DiscoverInstance
  simp only [ha, hb, Bool.false_eq_true, if_false, if_pos hex]
  split
  · exact ⟨rfl, rfl, by intro h; cases h⟩
  · split
    · exact ⟨rfl, rfl, by intro h; cases h⟩
    · split
      · exact ⟨rfl, rfl, by intro h; cases h⟩
      · split
        · rename_i hpi
          refine ⟨rfl, rfl, fun _ => ⟨rfl, ?_, ?_⟩⟩
          · intro m hmem
            simp only [List.mem_singleton] at hmem
            subst hmem
            exact hm
          · intro _ m hmem
            simp only [List.mem_singleton] at hmem
            subst hmem
            rfl
        · rename_i hpi
          refine ⟨rfl, rfl, fun _ => ⟨rfl, ?_, ?_⟩⟩
          · intro m hmem
            simp only [List.mem_singleton] at hmem
            subst hmem
            exact hm
          · intro hnone
            rw [hpi] at hnone
            cases hnone

/-- Witness for C6: a forced probe of an unresolved-fresh instance taking
2.5 seconds against a 1-second poll interval, failing with an error. -/
theorem pollSecondsExceededSignalWitness :
    (DiscoverInstance 1
        ⟨false, false, true, false, false, false, none, some "broken",
          false, 2500000000, 10, 2400000000, 2500000001⟩
        [] 0 "a:3306" false).pollExceededInc = 1 ∧
    (DiscoverInstance 1
        ⟨false, false, true, false, false, false, none, some "broken",
          false, 2500000000, 10, 2400000000, 2500000001⟩
        [] 0 "a:3306" false).pollExceededWarnings = 1 ∧
    ((DiscoverInstance 1
        ⟨false, false, true, false, false, false, none, some "broken",
          false, 2500000000, 10, 2400000000, 2500000001⟩
        [] 0 "a:3306" false).probeInvoked = true →
      (DiscoverInstance 1
          ⟨false, false, true, false, false, false, none, some "broken",
            false, 2500000000, 10, 2400000000, 2500000001⟩
          [] 0 "a:3306" false).metrics.length = 1 ∧
      (∀ m ∈ (DiscoverInstance 1
          ⟨false, false, true, false, false, false, none, some "broken",
            false, 2500000000, 10, 2400000000, 2500000001⟩
          [] 0 "a:3306" false).metrics,
        instancePollSecondsDuration 1 < m.totalLatency) ∧
      ((⟨false, false, true, false, false, false, none, some "broken",
          false, 2500000000, 10, 2400000000, 2500000001⟩ :
            DiscoverEnv).probeInstance = none →
        ∀ m ∈ (DiscoverInstance 1
            ⟨false, false, true, false, false, false, none, some "broken",
              false, 2500000000, 10, 2400000000, 2500000001⟩
            [] 0 "a:3306" false).metrics,
          m.err = (⟨false, false, true, false, false, false, none,
            some "broken", false, 2500000000, 10, 2400000000,
            2500000001⟩ : DiscoverEnv).probeErr)) :=
  pollSecondsExceededSignal 1
    ⟨false, false, true, false, false, false, none, some "broken",
      false, 2500000000, 10, 2400000000, 2500000001⟩
    [] 0 "a:3306" false rfl rfl (by decide) (by decide)

/-- C10: every non-forced `DiscoverInstance` call that passes the
forgotten/ignore filters, resolves to a valid key, and finds no unexpired
throttle marker inserts the marker — with expiration a full poll interval
after the call's lookup instant — before reading the backend state and
before invoking the probe: the marker ends up in the resulting cache for
every value of the backend-freshness and probe-outcome environment
(including a probe that is skipped as fresh or that fails), and any
further non-forced call on that key at any instant within the interval
performs no probe and no backend read. -/
theorem markerInsertedBeforeBackendAndProbe (ps now : Nat)
    (env : DiscoverEnv) (c : ThrottleCache) (k : String)
    (ha : env.forgotten = false) (hb : env.ignoredByFilters = false)
    (hc : env.validAfterResolve = true)
    (h0 : cacheHasUnexpired c k now = false) :
    cacheLookup (DiscoverInstance ps env c now k false).cache k
        = some (now + instancePollSecondsDuration ps) ∧
    (∀ (env2 : DiscoverEnv) (t2 : Nat),
      t2 ≤ now + instancePollSecondsDuration ps →
      (DiscoverInstance ps env2
          (DiscoverInstance ps env c now k false).cache t2 k
          false).probeInvoked = false ∧
      (DiscoverInstance ps env2
          (DiscoverInstance ps env c now k false).cache t2 k
          false).backendRead = false) := by
  have hadd := discoverCacheAfterAdd ps env c now k false ha hb hc
  have hc1 : cacheLookup (DiscoverInstance ps env c now k false).cache k
      = some (now + instancePollSecondsDuration ps) := by
    rw [hadd]
    simp [cacheAdd, h0, cacheLookup, List.lookup]
  refine ⟨hc1, ?_⟩
  intro env2 t2 ht2
  have hun : cacheHasUnexpired
      (DiscoverInstance ps env c now k false).cache k t2 = true := by
    simp only [cacheHasUnexpired, hc1, decide_eq_true_eq]
    omega
  have hth := discoverThrottled ps env2
    (DiscoverInstance ps env c now k false).cache t2 k hun
  exact ⟨hth.1, hth.2.1⟩

/-- Witness for C10: the marker inserted at instant 0 with a 1-second
poll interval throttles a call at 999999999 even though the first probe
failed. -/
theorem markerInsertedBeforeBackendAndProbeWitness :
    cacheLookup (DiscoverInstance 1
        ⟨false, false, true, false, false, false, none, some "broken",
          false, 0, 0, 0, 0⟩ [] 0 "a:3306" false).cache "a:3306"
      = some 1000000000 ∧
    (DiscoverInstance 1
        ⟨false, false, true, true, true, true, some (), none, false,
          0, 0, 0, 0⟩
        (DiscoverInstance 1
          ⟨false, false, true, false, false, false, none, some "broken",
            false, 0, 0, 0, 0⟩ [] 0 "a:3306" false).cache
        999999999 "a:3306" false).probeInvoked = false := by
  have h := markerInsertedBeforeBackendAndProbe 1 0
    ⟨false, false, true, false, false, false, none, some "broken",
      false, 0, 0, 0, 0⟩ [] "a:3306" rfl rfl rfl rfl
  exact ⟨h.1, (h.2 ⟨false, false, true, true, true, true, some (), none,
    false, 0, 0, 0, 0⟩ 999999999 (by decide)).1⟩

end VitessDiscovery
